import Mathlib

/-!
Shallow embedding of the range-header component of the httpext repository
(src/range_header.go): the ContentRange value type, its mutators and
accessors, constraint resolution, the wire formatter, and ParseRange with
its helper scanners. Go machine integers are modelled as Int (no claim here
depends on wraparound); the numeric-literal bounds check of strconv.ParseInt
at bit size 64 is modelled explicitly. Fallible Go functions returning
(value, error) are modelled as Except; the one possible runtime fault (the
unguarded index expression in expectSeparator) is modelled as Option, where
none stands for the out-of-bounds panic.
-/

namespace Httpext

/-- Error values of the range-header component. The four classified errors
mirror the package-level error variables; numError mirrors the
strconv.NumError values that strconv.ParseInt can return, carrying the
offending literal and the reason string. -/
inductive GoError where
  | rangeIsSuffix
  | rangeInvalid
  | rangeUnsatisfiableZeroLength
  | rangeOutsideConstraints
  | numError (num : String) (reason : String)
deriving DecidableEq, Repr

/-- Sentinel returned whenever a range has not been constrained in a way
that the requested value can be calculated. -/
def RangeUnconstrained : Int := -1

/-- The ContentRange struct: units, first/last with their bound flags, and
the optional total. Defaults are the Go zero values. -/
structure ContentRange where
  units : String := ""
  first : Int := 0
  last : Int := 0
  fBound : Bool := false
  lBound : Bool := false
  total : Int := 0
  tBound : Bool := false
deriving DecidableEq, Repr

namespace ContentRange

/-- SetFirst from the source: the guard reads the stored field c.first, not
the supplied argument. -/
def SetFirst (c : ContentRange) (first : Int) : Except GoError ContentRange :=
  if c.lBound = true ∧ c.first ≥ c.last then
    .error .rangeInvalid
  else
    .ok { c with first := first, fBound := true }

/-- SetLast from the source: rejects a supplied value below a bound first. -/
def SetLast (c : ContentRange) (last : Int) : Except GoError ContentRange :=
  if c.fBound = true ∧ last < c.first then
    .error .rangeInvalid
  else
    .ok { c with last := last, lBound := true }

/-- First accessor: the stored first when bound, else the sentinel. -/
def First (c : ContentRange) : Int :=
  if c.fBound = false then RangeUnconstrained else c.first

/-- Last accessor: the stored last when bound, else the sentinel. -/
def Last (c : ContentRange) : Int :=
  if c.lBound = false then RangeUnconstrained else c.last

/-- IsSuffix predicate: first is unbound. -/
def IsSuffix (c : ContentRange) : Bool := c.fBound = false

/-- IsFixed predicate: both bounds set. -/
def IsFixed (c : ContentRange) : Bool := c.fBound && c.lBound

/-- IsUnbounded predicate: either bound missing. -/
def IsUnbounded (c : ContentRange) : Bool := !c.fBound || !c.lBound

/-- IsFullRange predicate: first bound at 0, last unbound. -/
def IsFullRange (c : ContentRange) : Bool :=
  (c.fBound && decide (c.first = 0)) && !c.lBound

/-- Contains from the source: negative offsets count from the end. -/
def Contains (c : ContentRange) (offset : Int) : Bool :=
  if offset < 0 then
    if !c.fBound then false
    else decide (c.last ≥ -offset)
  else
    if !c.fBound || !c.lBound then false
    else decide (c.first ≤ offset ∧ offset ≤ c.last)

/-- Constrain from the source: resolves the interval against a collection
size, in order handling size zero, an unbound first (suffix), a first past
the end, and an unbound last. -/
def Constrain (c : ContentRange) (size : Int) : Except GoError ContentRange :=
  if size = 0 then
    if c.fBound = false then
      .ok { c with last := 0, lBound := true }
    else
      .error .rangeUnsatisfiableZeroLength
  else if c.fBound = false then
    .ok { c with
          first := (if size + c.last < 0 then 0 else size + c.last),
          fBound := true,
          last := size - 1,
          lBound := true }
  else if c.first > size - 1 then
    .error .rangeOutsideConstraints
  else if c.lBound = false then
    .ok { c with last := size - 1, lBound := true }
  else
    .ok c

/-- Offset from the source: returns the stored first field unconditionally. -/
def Offset (c : ContentRange) : Int := c.first

/-- Limit from the source: span when fixed, suffix length when only a
negative last is bound, else the sentinel. -/
def Limit (c : ContentRange) : Int :=
  if c.IsFixed then c.last - c.first
  else if c.lBound = true ∧ c.last < 0 then -c.last
  else RangeUnconstrained

/-- SetTotal from the source: Constrain, then record the total on success. -/
def SetTotal (c : ContentRange) (total : Int) : Except GoError ContentRange :=
  match c.Constrain total with
  | .error e => .error e
  | .ok c2 => .ok { c2 with total := total, tBound := true }

/-- Units accessor. -/
def Units (c : ContentRange) : String := c.units

/-- Format from the source: renders the Content-Range header body; fails
when exactly one bound is set. The error side carries the message text. -/
def Format (c : ContentRange) : Except String String :=
  let maxPart : String := if c.tBound then toString c.total else "*"
  if !c.fBound && !c.lBound then
    .ok (c.units ++ " */" ++ maxPart)
  else if (!c.fBound && c.lBound) || (c.fBound && !c.lBound) then
    .error "One or more unbound"
  else
    .ok (c.units ++ " " ++ toString c.first ++ "-" ++ toString c.last ++ "/" ++ maxPart)

end ContentRange

/-- NewContentRange from the source: SetFirst then SetLast on a fresh value. -/
def NewContentRange (units : String) (first last : Int) :
    Except GoError ContentRange :=
  match ContentRange.SetFirst { units := units } first with
  | .error e => .error e
  | .ok c =>
    match c.SetLast last with
    | .error e => .error e
    | .ok c2 => .ok c2

/-- Digit test of the source scanners: byte between the codes of 0 and 9. -/
def isDigitGo (c : Char) : Bool := 48 ≤ c.toNat && c.toNat ≤ 57

/-- Decimal value of a digit run. -/
def digitsVal (l : List Char) : Nat :=
  l.foldl (fun acc c => acc * 10 + (c.toNat - 48)) 0

/-- Largest int64 value, the overflow bound of strconv.ParseInt at bit
size 64. -/
def int64Max : Int := 9223372036854775807

/-- Smallest int64 value. -/
def int64Min : Int := -9223372036854775808

/-- Sign handling of strconv.ParseInt: an optional leading plus or minus
sign, yielding the sign factor and the remaining digit characters. -/
def signSplit (s : List Char) : Int × List Char :=
  match s with
  | '+' :: rest => (1, rest)
  | '-' :: rest => (-1, rest)
  | _ => (1, s)

/-- Numeric value a literal denotes, sign applied. -/
def intVal (s : List Char) : Int :=
  (signSplit s).1 * (digitsVal (signSplit s).2 : Int)

/-- Model of strconv.ParseInt with base 10 and bit size 64 as used by
expectRangeValue: an optional sign followed by at least one digit, every
character a digit, and the value within the int64 range; otherwise a
numError, as in the strconv package. -/
def parseIntGo (s : List Char) : Except GoError Int :=
  if (signSplit s).2 = [] ∨ (signSplit s).2.any (fun c => !(isDigitGo c)) then
    .error (.numError (String.mk s) "invalid syntax")
  else if intVal s < int64Min ∨ int64Max < intVal s then
    .error (.numError (String.mk s) "value out of range")
  else
    .ok (intVal s)

/-- expectUnitSpecifier from the source: split at the first equals sign;
when none is present both results are empty. -/
def expectUnitSpecifier (s : List Char) : List Char × List Char :=
  if '=' ∈ s then
    (s.takeWhile (fun c => c ≠ '='), (s.dropWhile (fun c => c ≠ '=')).tail)
  else
    ([], [])

/-- expectRangeValue from the source: the token is the first character
followed by the maximal digit run after it, handed to ParseInt; an empty
input falls through to ErrRangeInvalid. -/
def expectRangeValue (s : List Char) : Except GoError (Int × List Char) :=
  match s with
  | [] => .error .rangeInvalid
  | c0 :: rest =>
    match parseIntGo (c0 :: rest.takeWhile isDigitGo) with
    | .error e => .error e
    | .ok v => .ok (v, rest.dropWhile isDigitGo)

/-- expectSeparator from the source: reads s[0] without a length guard, so
an empty input is the out-of-bounds panic, modelled as none. -/
def expectSeparator (s : List Char) (sep : Char) : Option (List Char × Bool) :=
  match s with
  | [] => none
  | c :: rest => some (if c = sep then (rest, true) else (c :: rest, false))

/-- Body of ParseRange after the unit specifier has been split off: u is the
units token, s the remaining value expression. The outer Option models the
reachable-panic question: none would mean the expectSeparator index fault;
some carries the (range, error) outcome. -/
def parseRangeFrom (u s : List Char) : Option (Except GoError ContentRange) :=
  match expectRangeValue s with
  | .error e => some (.error e)
  | .ok (first, s1) =>
    if first < 0 then
      match ContentRange.SetLast { units := String.mk u } first with
      | .error e => some (.error e)
      | .ok rng1 => some (.ok rng1)
    else
      match ContentRange.SetFirst { units := String.mk u } first with
      | .error e => some (.error e)
      | .ok rng1 =>
        if s1 = [] then
          some (.ok rng1)
        else
          match expectSeparator s1 '-' with
          | none => none
          | some (s2, ok) =>
            if ok = true ∧ s2 ≠ [] then
              match expectRangeValue s2 with
              | .error e => some (.error e)
              | .ok (lastV, s3) =>
                match rng1.SetLast lastV with
                | .error e => some (.error e)
                | .ok rng2 =>
                  if s3 ≠ [] then some (.error .rangeInvalid)
                  else some (.ok rng2)
            else
              if s2 ≠ [] then some (.error .rangeInvalid)
              else some (.ok rng1)

/-- ParseRange from the source, on the character list of the header value:
split off the unit specifier, then run the value-expression state machine. -/
def parseRangeList (r : List Char) : Option (Except GoError ContentRange) :=
  parseRangeFrom (expectUnitSpecifier r).1 (expectUnitSpecifier r).2

/-- ParseRange on a header string. -/
def ParseRange (r : String) : Option (Except GoError ContentRange) :=
  parseRangeList r.data

/-- Holds of the strconv-shaped errors, as opposed to the four classified
package-level error values. -/
def isNumErr : GoError → Bool
  | .numError _ _ => true
  | _ => false

/-- A successful SetFirst stores the supplied value and raises fBound. -/
theorem SetFirst_ok_eq {c c' : ContentRange} {v : Int}
    (h : c.SetFirst v = .ok c') : c' = { c with first := v, fBound := true } := by
  unfold ContentRange.SetFirst at h
  split at h
  · exact absurd h (by simp)
  · exact (Except.ok.inj h).symm

/-- A successful SetLast stores the supplied value and raises lBound. -/
theorem SetLast_ok_eq {c c' : ContentRange} {v : Int}
    (h : c.SetLast v = .ok c') : c' = { c with last := v, lBound := true } := by
  unfold ContentRange.SetLast at h
  split at h
  · exact absurd h (by simp)
  · exact (Except.ok.inj h).symm

/-- The only error SetFirst returns is ErrRangeInvalid. -/
theorem SetFirst_error_eq {c : ContentRange} {v : Int} {e : GoError}
    (h : c.SetFirst v = .error e) : e = .rangeInvalid := by
  unfold ContentRange.SetFirst at h
  split at h
  · exact (Except.error.inj h).symm
  · exact absurd h (by simp)

/-- The only error SetLast returns is ErrRangeInvalid. -/
theorem SetLast_error_eq {c : ContentRange} {v : Int} {e : GoError}
    (h : c.SetLast v = .error e) : e = .rangeInvalid := by
  unfold ContentRange.SetLast at h
  split at h
  · exact (Except.error.inj h).symm
  · exact absurd h (by simp)

/-- Every error of the ParseInt model is a strconv-shaped numError. -/
theorem parseIntGo_error_isNumErr {s : List Char} {e : GoError}
    (h : parseIntGo s = .error e) : isNumErr e = true := by
  unfold parseIntGo at h
  split at h
  · rw [← Except.error.inj h]
    rfl
  · split at h
    · rw [← Except.error.inj h]
      rfl
    · exact absurd h (by simp)

/-- Every error of expectRangeValue is ErrRangeInvalid or a numError. -/
theorem expectRangeValue_error {s : List Char} {e : GoError}
    (h : expectRangeValue s = .error e) :
    e = .rangeInvalid ∨ isNumErr e = true := by
  unfold expectRangeValue at h
  split at h
  · exact Or.inl (Except.error.inj h).symm
  · split at h
    · rename_i he0
      have he : _ = e := Except.error.inj h
      subst he
      exact Or.inr (parseIntGo_error_isNumErr he0)
    · exact absurd h (by simp)

/-- Every error of Constrain is the zero-length or the outside-constraints
classified value. -/
theorem Constrain_error_eq {c : ContentRange} {n : Int} {e : GoError}
    (h : c.Constrain n = .error e) :
    e = .rangeUnsatisfiableZeroLength ∨ e = .rangeOutsideConstraints := by
  unfold ContentRange.Constrain at h
  split at h
  · split at h
    · exact absurd h (by simp)
    · exact Or.inl (Except.error.inj h).symm
  · split at h
    · exact absurd h (by simp)
    · split at h
      · exact Or.inr (Except.error.inj h).symm
      · split at h
        · exact absurd h (by simp)
        · exact absurd h (by simp)

/-- Bound flags after a successful Constrain: last is always bound; first
is bound exactly when the size was nonzero (a successful zero-size call is
the suffix case, which leaves first untouched and unbound). -/
theorem Constrain_ok_bounds {c c' : ContentRange} {n : Int}
    (h : c.Constrain n = .ok c') :
    c'.lBound = true ∧ (n ≠ 0 → c'.fBound = true) ∧ (n = 0 → c'.fBound = false) := by
  unfold ContentRange.Constrain at h
  split at h
  · rename_i hn
    split at h
    · rename_i hfb
      have hc : _ = c' := Except.ok.inj h
      subst hc
      exact ⟨rfl, fun hne => absurd hn hne, fun _ => hfb⟩
    · exact absurd h (by simp)
  · rename_i hn
    split at h
    · have hc : _ = c' := Except.ok.inj h
      subst hc
      exact ⟨rfl, fun _ => rfl, fun h0 => absurd h0 hn⟩
    · rename_i hfb
      split at h
      · exact absurd h (by simp)
      · split at h
        · have hc : _ = c' := Except.ok.inj h
          subst hc
          refine ⟨rfl, fun _ => ?_, fun h0 => absurd h0 hn⟩
          simpa using hfb
        · rename_i hlb
          have hc : _ = c' := Except.ok.inj h
          subst hc
          exact ⟨by simpa using hlb, fun _ => by simpa using hfb, fun h0 => absurd h0 hn⟩

/-- Every error outcome of the ParseRange body is ErrRangeInvalid or a
strconv-shaped numError. -/
theorem parseRangeFrom_error {u s : List Char} {e : GoError}
    (h : parseRangeFrom u s = some (.error e)) :
    e = .rangeInvalid ∨ isNumErr e = true := by
  unfold parseRangeFrom at h
  split at h
  · rename_i he0
    have : _ = e := Except.error.inj (Option.some.inj h)
    subst this
    exact expectRangeValue_error he0
  · split at h
    · split at h
      · rename_i hsl
        have : _ = e := Except.error.inj (Option.some.inj h)
        subst this
        exact Or.inl (SetLast_error_eq hsl)
      · exact Except.noConfusion (Option.some.inj h)
    · split at h
      · rename_i hsf
        have : _ = e := Except.error.inj (Option.some.inj h)
        subst this
        exact Or.inl (SetFirst_error_eq hsf)
      · split at h
        · exact Except.noConfusion (Option.some.inj h)
        · split at h
          · exact Option.noConfusion h
          · split at h
            · split at h
              · rename_i hev2
                have : _ = e := Except.error.inj (Option.some.inj h)
                subst this
                exact expectRangeValue_error hev2
              · split at h
                · rename_i hsl2
                  have : _ = e := Except.error.inj (Option.some.inj h)
                  subst this
                  exact Or.inl (SetLast_error_eq hsl2)
                · split at h
                  · exact Or.inl (Except.error.inj (Option.some.inj h)).symm
                  · exact Except.noConfusion (Option.some.inj h)
            · split at h
              · exact Or.inl (Except.error.inj (Option.some.inj h)).symm
              · exact Except.noConfusion (Option.some.inj h)

/-- A successfully parsed range whose first is unbound can only have come
from the suffix path, where the first field keeps the zero value. -/
theorem parseRangeFrom_unbound_first {u s : List Char} {rng : ContentRange}
    (h : parseRangeFrom u s = some (.ok rng)) (hf : rng.fBound = false) :
    rng.first = 0 := by
  unfold parseRangeFrom at h
  split at h
  · exact Except.noConfusion (Option.some.inj h)
  · split at h
    · split at h
      · exact Except.noConfusion (Option.some.inj h)
      · rename_i hsl
        have hr : _ = rng := Except.ok.inj (Option.some.inj h)
        subst hr
        rw [SetLast_ok_eq hsl]
    · split at h
      · exact Except.noConfusion (Option.some.inj h)
      · rename_i hsf
        split at h
        · have hr : _ = rng := Except.ok.inj (Option.some.inj h)
          subst hr
          rw [SetFirst_ok_eq hsf] at hf
          simp at hf
        · split at h
          · exact Option.noConfusion h
          · split at h
            · split at h
              · exact Except.noConfusion (Option.some.inj h)
              · split at h
                · exact Except.noConfusion (Option.some.inj h)
                · rename_i hsl2
                  split at h
                  · exact Except.noConfusion (Option.some.inj h)
                  · have hr : _ = rng := Except.ok.inj (Option.some.inj h)
                    subst hr
                    rw [SetLast_ok_eq hsl2, SetFirst_ok_eq hsf] at hf
                    simp at hf
            · split at h
              · exact Except.noConfusion (Option.some.inj h)
              · have hr : _ = rng := Except.ok.inj (Option.some.inj h)
                subst hr
                rw [SetFirst_ok_eq hsf] at hf
                simp at hf

/-- The ParseRange body never reaches the unguarded expectSeparator index:
every input yields a some outcome. -/
theorem parseRangeFrom_isSome (u s : List Char) :
    (parseRangeFrom u s).isSome = true := by
  unfold parseRangeFrom
  split
  · rfl
  · split
    · split
      · rfl
      · rfl
    · split
      · rfl
      · split
        · rfl
        · rename_i hs1
          split
          · rename_i hsep
            cases hs0 : ‹List Char› with
            | nil => exact absurd hs0 hs1
            | cons c rest => rw [hs0] at hsep; simp [expectSeparator] at hsep
          · split
            · split
              · rfl
              · split
                · rfl
                · split
                  · rfl
                  · rfl
            · split
              · rfl
              · rfl

/-- C1: evaluation of the code at the failing input of the claim. On a
fresh ContentRange, SetLast 5 succeeds and then SetFirst 10 also succeeds,
because the SetFirst guard compares the stale stored field (still 0)
against last instead of the supplied value; the resulting state violates
first <= last, which the claim says the mutators enforce in either order. -/
theorem setLast_then_setFirst_breaks_invariant :
    ContentRange.SetLast { units := "resources" } 5 =
      .ok { units := "resources", last := 5, lBound := true } ∧
    ContentRange.SetFirst { units := "resources", last := 5, lBound := true } 10 =
      .ok { units := "resources", first := 10, last := 5, fBound := true, lBound := true } ∧
    ContentRange.first
        { units := "resources", first := 10, last := 5, fBound := true, lBound := true } >
      ContentRange.last
        { units := "resources", first := 10, last := 5, fBound := true, lBound := true } :=
  ⟨rfl, rfl, by decide⟩

/-- C2 counterexample: on the suffix range parsed from resources=-100,
Constrain 0 succeeds and resolves to last = 0 with last bound, exactly as
the claim says, but Limit afterwards returns the unconstrained sentinel -1,
not 0, because first is still unbound so the range is not fixed. -/
theorem constrain_zero_suffix_limit_cex :
    ParseRange "resources=-100" =
      some (.ok { units := "resources", last := -100, lBound := true }) ∧
    ContentRange.Constrain { units := "resources", last := -100, lBound := true } 0 =
      .ok { units := "resources", last := 0, lBound := true } ∧
    ContentRange.Limit { units := "resources", last := 0, lBound := true } =
      RangeUnconstrained ∧
    RangeUnconstrained ≠ 0 :=
  ⟨rfl, rfl, rfl, by decide⟩

/-- C2 amended: Constrain 0 on a range with first unbound succeeds, binding
last to 0 and leaving first unbound, and Limit afterwards returns the
unconstrained sentinel; Constrain 0 on a range with first bound fails with
ErrRangeUnsatisfiableZeroLength. -/
theorem constrain_zero_amended (c : ContentRange) :
    (c.fBound = false →
      c.Constrain 0 = .ok { c with last := 0, lBound := true } ∧
      ContentRange.Limit { c with last := 0, lBound := true } = RangeUnconstrained) ∧
    (c.fBound = true →
      c.Constrain 0 = .error .rangeUnsatisfiableZeroLength) := by
  constructor
  · intro hf
    constructor
    · unfold ContentRange.Constrain
      rw [if_pos rfl, if_pos hf]
    · unfold ContentRange.Limit ContentRange.IsFixed
      simp [hf, RangeUnconstrained]
  · intro hf
    unfold ContentRange.Constrain
    rw [if_pos rfl, if_neg (by simp [hf])]

/-- C2 amended, witness at the concrete inputs of the claim: the suffix
range of resources=-100 against size 0, and a bound-first range against
size 0. -/
theorem constrain_zero_amended_witness :
    (ContentRange.Constrain { units := "resources", last := -100, lBound := true } 0 =
        .ok { units := "resources", last := 0, lBound := true } ∧
      ContentRange.Limit { units := "resources", last := 0, lBound := true } =
        RangeUnconstrained) ∧
    ContentRange.Constrain { units := "r", first := 5, fBound := true } 0 =
      .error .rangeUnsatisfiableZeroLength :=
  ⟨(constrain_zero_amended { units := "resources", last := -100, lBound := true }).1 rfl,
   (constrain_zero_amended { units := "r", first := 5, fBound := true }).2 rfl⟩

/-- C3 counterexample: SetTotal 0 on a suffix range succeeds, so totalBound
becomes true, yet first is still unbound afterwards, contradicting the
claimed invariant that a successful SetTotal always leaves both bounds set. -/
theorem setTotal_zero_first_unbound_cex :
    ContentRange.SetTotal { units := "resources", last := -100, lBound := true } 0 =
      .ok { units := "resources", last := 0, lBound := true, tBound := true } ∧
    ContentRange.tBound
        { units := "resources", last := 0, lBound := true, tBound := true } = true ∧
    ContentRange.fBound
        { units := "resources", last := 0, lBound := true, tBound := true } = false :=
  ⟨rfl, rfl, rfl⟩

/-- C3 amended: after any successful SetTotal, last is always bound and
totalBound is true; first is bound whenever the total was nonzero, but a
successful SetTotal 0 (possible only on a suffix range) leaves first
unbound. -/
theorem setTotal_ok_bounds (c c' : ContentRange) (t : Int)
    (h : c.SetTotal t = .ok c') :
    c'.tBound = true ∧ c'.lBound = true ∧ (t ≠ 0 → c'.fBound = true) ∧
      (t = 0 → c'.fBound = false) := by
  unfold ContentRange.SetTotal at h
  split at h
  · exact absurd h (by simp)
  · rename_i c2 hc2
    have h2 : _ = c' := Except.ok.inj h
    subst h2
    obtain ⟨h1, h3, h4⟩ := Constrain_ok_bounds hc2
    exact ⟨rfl, h1, h3, h4⟩

/-- C3 amended, witness: SetTotal 200 on the suffix range of
resources=-100 resolves both bounds. -/
theorem setTotal_ok_bounds_witness :
    ContentRange.tBound { units := "resources", first := 100, last := 199, fBound := true, lBound := true, total := 200, tBound := true } = true ∧
    ContentRange.lBound { units := "resources", first := 100, last := 199, fBound := true, lBound := true, total := 200, tBound := true } = true ∧
    ((200 : Int) ≠ 0 →
      ContentRange.fBound { units := "resources", first := 100, last := 199, fBound := true, lBound := true, total := 200, tBound := true } = true) ∧
    ((200 : Int) = 0 →
      ContentRange.fBound { units := "resources", first := 100, last := 199, fBound := true, lBound := true, total := 200, tBound := true } = false) :=
  setTotal_ok_bounds { units := "resources", last := -100, lBound := true }
    { units := "resources", first := 100, last := 199, fBound := true, lBound := true, total := 200, tBound := true } 200 (by rfl)

/-- C4: evaluation of the code at the failing inputs of the claim. The
guard of SetFirst reads the stale stored field instead of the supplied
value, so with last bound at 5 it accepts the value 10 (which the claim,
with its >= reading, says must be rejected) and, with the stored first
already equal to last, it rejects the value 1 (which the claim says must
be accepted since 1 <= 5). -/
theorem setFirst_guard_stale_field :
    ContentRange.SetFirst { units := "r", last := 5, lBound := true } 10 =
      .ok { units := "r", first := 10, last := 5, fBound := true, lBound := true } ∧
    ContentRange.SetFirst
        { units := "r", first := 5, last := 5, fBound := true, lBound := true } 1 =
      .error .rangeInvalid ∧
    (10 : Int) > 5 ∧ (1 : Int) ≤ 5 :=
  ⟨rfl, rfl, by decide, by decide⟩

/-- C5: the unbound forms resolve against a later total exactly as the
claim states: resources=-100 then SetTotal 200 formats as
resources 100-199/200, and resources=100- then SetTotal 300 formats as
resources 100-299/300. -/
theorem parse_unbound_forms_resolve :
    (ParseRange "resources=-100" =
        some (.ok { units := "resources", last := -100, lBound := true }) ∧
      ContentRange.SetTotal { units := "resources", last := -100, lBound := true } 200 =
        .ok { units := "resources", first := 100, last := 199, fBound := true, lBound := true, total := 200, tBound := true } ∧
      ContentRange.Format { units := "resources", first := 100, last := 199, fBound := true, lBound := true, total := 200, tBound := true } =
        .ok "resources 100-199/200") ∧
    (ParseRange "resources=100-" =
        some (.ok { units := "resources", first := 100, fBound := true }) ∧
      ContentRange.SetTotal { units := "resources", first := 100, fBound := true } 300 =
        .ok { units := "resources", first := 100, last := 299, fBound := true, lBound := true, total := 300, tBound := true } ∧
      ContentRange.Format { units := "resources", first := 100, last := 299, fBound := true, lBound := true, total := 300, tBound := true } =
        .ok "resources 100-299/300") :=
  ⟨⟨rfl, rfl, rfl⟩, ⟨rfl, rfl, rfl⟩⟩

/-- C6 counterexample: on the suffix range parsed from resources=-100,
first is unbound but Offset returns 0, the zero value of the field, not
the RangeUnconstrained sentinel -1 the claim promises. -/
theorem offset_unbound_zero_cex :
    ParseRange "resources=-100" =
      some (.ok { units := "resources", last := -100, lBound := true }) ∧
    ContentRange.fBound { units := "resources", last := -100, lBound := true } = false ∧
    ContentRange.Offset { units := "resources", last := -100, lBound := true } = 0 ∧
    (0 : Int) ≠ RangeUnconstrained :=
  ⟨rfl, rfl, rfl, by decide⟩

/-- C6 amended: Offset returns the stored first field unconditionally;
when first is bound this is the bound value, and on any successfully
parsed range whose first is unbound the field still holds its zero value,
so Offset returns 0 rather than the RangeUnconstrained sentinel. -/
theorem offset_parse_unbound_zero (s : String) (rng : ContentRange)
    (h : ParseRange s = some (.ok rng)) (hf : rng.fBound = false) :
    rng.Offset = 0 :=
  parseRangeFrom_unbound_first h hf

/-- C6 amended, witness at the suffix range of resources=-100. -/
theorem offset_parse_unbound_zero_witness :
    ContentRange.Offset { units := "resources", last := -100, lBound := true } = 0 :=
  offset_parse_unbound_zero "resources=-100"
    { units := "resources", last := -100, lBound := true } (by rfl) (by rfl)

/-- C7 counterexample: ParseRange on resources=- returns the strconv
numeric-parse error, which is none of the four classified error values. -/
theorem parse_strconv_error_cex :
    ParseRange "resources=-" = some (.error (.numError "-" "invalid syntax")) ∧
    GoError.numError "-" "invalid syntax" ≠ .rangeIsSuffix ∧
    GoError.numError "-" "invalid syntax" ≠ .rangeInvalid ∧
    GoError.numError "-" "invalid syntax" ≠ .rangeUnsatisfiableZeroLength ∧
    GoError.numError "-" "invalid syntax" ≠ .rangeOutsideConstraints :=
  ⟨rfl, by decide, by decide, by decide, by decide⟩

/-- C7 amended: every error of ParseRange is ErrRangeInvalid or a strconv
numeric-parse error; every error of Constrain is one of the two classified
constraint errors; SetTotal returns exactly the errors of Constrain. In
particular no error outside these shapes, and no uncaught fault, is
possible. -/
theorem errors_classified_amended :
    (∀ (s : String) (e : GoError), ParseRange s = some (.error e) →
      e = .rangeInvalid ∨ isNumErr e = true) ∧
    (∀ (c : ContentRange) (n : Int) (e : GoError), c.Constrain n = .error e →
      e = .rangeUnsatisfiableZeroLength ∨ e = .rangeOutsideConstraints) ∧
    (∀ (c : ContentRange) (n : Int) (e : GoError), c.SetTotal n = .error e →
      c.Constrain n = .error e) := by
  refine ⟨fun s e h => parseRangeFrom_error h,
          fun c n e h => Constrain_error_eq h,
          fun c n e h => ?_⟩
  unfold ContentRange.SetTotal at h
  split at h
  · rename_i he0
    have : _ = e := Except.error.inj h
    subst this
    exact he0
  · exact absurd h (by simp)

/-- C7 amended, witness at concrete inputs: the malformed fixed range
resources=5-3 yields ErrRangeInvalid, and Constrain and SetTotal at size 0
on a bound-first range yield the zero-length classified error. -/
theorem errors_classified_amended_witness :
    (GoError.rangeInvalid = .rangeInvalid ∨ isNumErr .rangeInvalid = true) ∧
    (GoError.rangeUnsatisfiableZeroLength = .rangeUnsatisfiableZeroLength ∨
      GoError.rangeUnsatisfiableZeroLength = .rangeOutsideConstraints) ∧
    ContentRange.Constrain { units := "r", first := 5, fBound := true } 0 =
      .error .rangeUnsatisfiableZeroLength :=
  ⟨errors_classified_amended.1 "resources=5-3" .rangeInvalid (by rfl),
   errors_classified_amended.2.1 { units := "r", first := 5, fBound := true } 0
     .rangeUnsatisfiableZeroLength (by rfl),
   errors_classified_amended.2.2 { units := "r", first := 5, fBound := true } 0
     .rangeUnsatisfiableZeroLength (by rfl)⟩

/-- C8: any input without an equals sign makes ParseRange fail with
ErrRangeInvalid: the unit-specifier scan yields an empty remainder and the
value scan on the empty remainder falls through to the error, so no
empty-parse state is ever returned. -/
theorem parse_no_equals_rangeInvalid (s : String) (h : '=' ∉ s.data) :
    ParseRange s = some (.error .rangeInvalid) := by
  unfold ParseRange parseRangeList expectUnitSpecifier
  rw [if_neg h]
  rfl

/-- C8 witness at the input resources, which has no equals sign. -/
theorem parse_no_equals_rangeInvalid_witness :
    ParseRange "resources" = some (.error .rangeInvalid) :=
  parse_no_equals_rangeInvalid "resources" (by decide)

/-- C9: Constrain is idempotent on resolved specs: for any positive size
and any spec already fully bound with first within range, Constrain
returns the spec unchanged with no error. -/
theorem constrain_idempotent (c : ContentRange) (n : Int) (h0 : 0 < n)
    (hf : c.fBound = true) (hl : c.lBound = true) (hle : c.first ≤ n - 1) :
    c.Constrain n = .ok c := by
  unfold ContentRange.Constrain
  rw [if_neg (by omega), if_neg (by simp [hf]), if_neg (by omega),
      if_neg (by simp [hl])]

/-- C9 witness: the resolved range 100-199 constrained again at size 200
is returned unchanged. -/
theorem constrain_idempotent_witness :
    ContentRange.Constrain
        { units := "resources", first := 100, last := 199, fBound := true, lBound := true }
        200 =
      .ok { units := "resources", first := 100, last := 199, fBound := true, lBound := true } :=
  constrain_idempotent
    { units := "resources", first := 100, last := 199, fBound := true, lBound := true }
    200 (by decide) rfl rfl (by decide)

/-- C10: ParseRange is total and never reaches the unguarded index
expression of expectSeparator: for every input string it returns some
outcome, a parsed ContentRange or a returned error value, and the
modelled panic (the none case) is unreachable because the separator scan
only runs after the nonempty-remainder check. -/
theorem parseRange_total (s : String) : (ParseRange s).isSome = true :=
  parseRangeFrom_isSome (expectUnitSpecifier s.data).1 (expectUnitSpecifier s.data).2

end Httpext
